import Mathlib

/-!
StellarWeb: gesture-driven Saturn particle simulation.

A shallow embedding of the numeric core of `src/app.js` and `src/main.js`.

* JavaScript numbers are modelled as elements of a linearly ordered field
  (the theorems are stated over `ℝ`), that is, arithmetic is exact; functions
  that do not need a square root are written over an arbitrary ordered field
  so that they can be evaluated on rationals.
* `THREE.MathUtils.lerp` and `THREE.MathUtils.clamp` belong to the three.js
  library and are embedded from its published definitions.
* A second embedding over `JSNum` (a number, `NaN` or a signed infinity) is
  used only for the statements that talk about non-finite inputs.
-/

/-! ## three.js `MathUtils` -/

namespace MathUtils

variable {K : Type} [LinearOrderedField K]

/-- three.js `lerp(x, y, t)`: `return (1 - t) * x + t * y`. -/
def lerp (x y t : K) : K := (1 - t) * x + t * y

/-- three.js `clamp(value, min, max)`:
`return Math.max(min, Math.min(max, value))`. -/
def clamp (value lo hi : K) : K := max lo (min hi value)

/-- three.js `randFloat(low, high)`: `return low + Math.random() * (high - low)`,
with the random draw `u` made explicit. -/
def randFloat (low high u : K) : K := low + u * (high - low)

end MathUtils

/-- A landmark or point with three coordinates, `{ x, y, z }`. -/
structure Vec3 (K : Type) where
  x : K
  y : K
  z : K

/-! ## `src/app.js` -/

namespace App

open MathUtils

section Field

variable {K : Type} [LinearOrderedField K]

/-- The `params` object of `src/app.js` (lines 34-41). -/
structure Params (K : Type) where
  minSpread : K
  maxSpread : K
  chaoticThreshold : K
  baseBrightness : K
  maxBrightness : K
  keplerMu : K

/-- The constant `params` of `src/app.js`. -/
def params : Params K :=
  { minSpread := 0.62
    maxSpread := 2.6
    chaoticThreshold := 1.8
    baseBrightness := 0.28
    maxBrightness := 1.4
    keplerMu := 1200 }

/-- The mutable module-level scalars of `src/app.js` (lines 46-49 and 263). -/
structure State (K : Type) where
  brownianForce : K
  targetSpread : K
  currentSpread : K
  keplerTime : K
  hasHand : Bool

/-- The initial values of the module-level scalars. -/
def init : State K :=
  { brownianForce := 0
    targetSpread := 1.1
    currentSpread := 1.1
    keplerTime := 0
    hasHand := false }

/-- The value `mapGestureToSpread(openness)` assigns to `targetSpread`. -/
def mapGestureToSpread (openness : K) : K :=
  lerp (params : Params K).minSpread (params : Params K).maxSpread openness

/-- The `brightness` constant computed in `animate` (lines 196-200) from the
freshly updated `currentSpread`. -/
def brightness (currentSpread : K) : K :=
  clamp
    ((params : Params K).baseBrightness
      + (currentSpread - (params : Params K).minSpread)
          / ((params : Params K).maxSpread - (params : Params K).minSpread)
          * ((params : Params K).maxBrightness - (params : Params K).baseBrightness))
    (params : Params K).baseBrightness
    (params : Params K).maxBrightness

/-- The value `updateCore` writes to `coreParticles.material.opacity`. -/
def coreOpacity (brightness : K) : K := clamp brightness 0.2 1.0

/-- The value `updateCore` writes to `coreParticles.material.size`. -/
def coreSize (brightness : K) : K := 1.1 + brightness * 1.5

/-- The target of the `brownianForce` interpolation in `updateRing`:
`chaotic ? 8.5 : 0.6` with `chaotic = currentSpread > params.chaoticThreshold`. -/
def brownianTarget (currentSpread : K) : K :=
  if currentSpread > (params : Params K).chaoticThreshold then 8.5 else 0.6

/-- The scalar part of `updateRing(delta, brightness)` (lines 153-155): the
Kepler clock advances and `brownianForce` moves toward its target. -/
def updateRing (delta : K) (s : State K) : State K :=
  { s with
    keplerTime := s.keplerTime + delta
    brownianForce := lerp s.brownianForce (brownianTarget s.currentSpread) 0.05 }

/-- One frame of `animate` on the module-level scalars: `currentSpread` moves
toward `targetSpread` with factor `0.06`, then `updateRing` runs. -/
def animate (delta : K) (s : State K) : State K :=
  let lerpFactor : K := 0.06
  let currentSpread := lerp s.currentSpread s.targetSpread lerpFactor
  updateRing delta { s with currentSpread := currentSpread }

/-- The branch of `detectLoop` taken when a hand is present, given the openness
returned by `computeHandOpenness`. -/
def detectHand (openness : K) (s : State K) : State K :=
  { s with hasHand := true, targetSpread := mapGestureToSpread openness }

/-- The value the no-hand branch of `detectLoop` assigns to `targetSpread`
(line 312). -/
def relax (targetSpread : K) : K := lerp targetSpread 1.15 0.04

/-- The branch of `detectLoop` taken when no hand is present. -/
def detectNoHand (s : State K) : State K :=
  { s with hasHand := false, targetSpread := relax s.targetSpread }

/-- The state after `n` rounds of sustained openness `o`: in every round the
detection calls `mapGestureToSpread(o)` and then one frame of `animate` runs
(`deltas n` is the elapsed time read in round `n`). -/
def sustainedRun (o : K) (deltas : ℕ → K) (s : State K) : ℕ → State K
  | 0 => s
  | n + 1 => animate (deltas n) (detectHand o (sustainedRun o deltas s n))

end Field

/-- The index list `palmIndices` of `computeHandOpenness`. -/
def palmIndices : List (Fin 21) := [0, 5, 9, 13, 17]

/-- The index list `tipIndices` of `computeHandOpenness`. -/
def tipIndices : List (Fin 21) := [4, 8, 12, 16, 20]

/-- The palm centre of `computeHandOpenness` (lines 238-245): the coordinates
of the palm landmarks are summed by `reduce` and divided by their number. -/
def palmCenter {K : Type} [LinearOrderedField K] (landmarks : Fin 21 → Vec3 K) : Vec3 K :=
  let sum := palmIndices.foldl
    (fun (sum : Vec3 K) idx =>
      let lm := landmarks idx
      { x := sum.x + lm.x, y := sum.y + lm.y, z := sum.z + lm.z })
    { x := 0, y := 0, z := 0 }
  { x := sum.x / (palmIndices.length : K)
    y := sum.y / (palmIndices.length : K)
    z := sum.z / (palmIndices.length : K) }

/-- `computeHandOpenness(landmarks)` of `src/app.js` (lines 237-259). -/
noncomputable def computeHandOpenness (landmarks : Fin 21 → Vec3 ℝ) : ℝ :=
  let palm := palmCenter landmarks
  let total := tipIndices.foldl
    (fun (total : ℝ) idx =>
      let lm := landmarks idx
      let dx := lm.x - palm.x
      let dy := lm.y - palm.y
      let dz := lm.z - palm.z
      total + Real.sqrt (dx * dx + dy * dy + dz * dz))
    0
  let avg := total / (tipIndices.length : ℝ)
  clamp ((avg - 0.05) / 0.18) 0 1

/-- What can happen between two observations of the state of `src/app.js`:
a frame of `animate` (with the elapsed time `delta` read from the clock), a
detection that found a hand, or a detection that found none. -/
inductive Event where
  | tick (delta : ℝ)
  | hand (landmarks : Fin 21 → Vec3 ℝ)
  | noHand

/-- The effect of one event on the module-level scalars. -/
noncomputable def step (s : State ℝ) : Event → State ℝ
  | .tick delta => animate delta s
  | .hand landmarks => detectHand (computeHandOpenness landmarks) s
  | .noHand => detectNoHand s

/-- The state after a finite sequence of events, oldest first. -/
noncomputable def run (s : State ℝ) (events : List Event) : State ℝ :=
  events.foldl step s

/-- One entry of `ringState`, `{ radius, angle, height }` (line 132). -/
structure RingParticle (K : Type) where
  radius : K
  angle : K
  height : K

/-- One iteration of the loop of `updateRing(delta, brightness)` (lines 158-169)
for the entry `state` of `ringState`. The loop runs after the scalar update, so
`s` holds the new `keplerTime` and `brownianForce`; `rnd` holds the three values
of `Math.random()` drawn for the x, y and z coordinates, in this order. The
result is the updated entry and the position written to the buffer. -/
noncomputable def updateRingParticle (delta brightness : ℝ) (s : State ℝ)
    (state : RingParticle ℝ) (rnd : Vec3 ℝ) : RingParticle ℝ × Vec3 ℝ :=
  let mu : ℝ := (params : Params ℝ).keplerMu
  let omega := Real.sqrt (mu / state.radius ^ 3)
  let angle := state.angle + omega * delta * (1.1 + 0.4 * Real.sin (s.keplerTime * 0.4))
  let radius := state.radius * s.currentSpread
  let x := radius * Real.cos angle
  let z := radius * Real.sin angle
  let y := state.height * s.currentSpread * lerp 1 0.35 brightness
  let noiseAmp := s.brownianForce * delta * 12
  ({ state with angle := angle },
    { x := x + (rnd.x - 0.5) * noiseAmp
      y := y + (rnd.y - 0.5) * noiseAmp * 0.5
      z := z + (rnd.z - 0.5) * noiseAmp })

/-- The loop of `updateRing(delta, brightness)` over `ringState`: the scalar
update runs first, then every entry is advanced and its position emitted;
`rnd i` holds the random draws made for particle `i`. -/
noncomputable def updateRingPositions (delta brightness : ℝ) (s : State ℝ)
    (ringState : List (RingParticle ℝ)) (rnd : ℕ → Vec3 ℝ) :
    List (RingParticle ℝ × Vec3 ℝ) :=
  ringState.enum.map
    (fun ip => updateRingParticle delta brightness (updateRing delta s) ip.2 (rnd ip.1))

/-- The planar radius `sqrt(x^2 + z^2)` of an emitted position. -/
noncomputable def planarRadius (p : Vec3 ℝ) : ℝ := Real.sqrt (p.x ^ 2 + p.z ^ 2)

/-- The bounds kept by every reachable state of `src/app.js`: both spreads lie
in `[minSpread, maxSpread]` and `brownianForce` is not negative. -/
def Inv (s : State ℝ) : Prop :=
  ((0.62 : ℝ) ≤ s.currentSpread ∧ s.currentSpread ≤ 2.6) ∧
  ((0.62 : ℝ) ≤ s.targetSpread ∧ s.targetSpread ≤ 2.6) ∧
  0 ≤ s.brownianForce

end App

/-! ## `src/main.js` -/

namespace Main

open MathUtils

section Field

variable {K : Type} [LinearOrderedField K]

/-- The module-level object `gesture` of `src/main.js` (line 12). -/
structure Gesture (K : Type) where
  openness : K
  hasHand : Bool

/-- The initial value of `gesture`: `{ openness: 0.5, hasHand: false }`. -/
def gestureInit : Gesture K := { openness := 0.5, hasHand := false }

/-- `average(points)` of `src/main.js` (lines 192-198). -/
def average (points : List (Vec3 K)) : Vec3 K :=
  let sum := points.foldl
    (fun (acc : Vec3 K) p => { x := acc.x + p.x, y := acc.y + p.y, z := acc.z + p.z })
    { x := 0, y := 0, z := 0 }
  { x := sum.x / (points.length : K)
    y := sum.y / (points.length : K)
    z := sum.z / (points.length : K) }

/-- The values `SaturnSystem.update(scaleNormalized)` and the `animateRing`
call it makes write to the scene (lines 300-346), apart from positions. -/
structure Appearance (K : Type) where
  coreScale : K
  glowScale : K
  brightness : K
  toneMappingExposure : K
  sphereOpacity : K
  chaos : K
  scaleFactor : K
  ringOpacity : K
  ringSize : K

/-- The appearance part of `SaturnSystem.update(scaleNormalized)`, with the
body of `animateRing(dt, scaleNormalized, brightness)` inlined. -/
def update (scaleNormalized : K) : Appearance K :=
  let coreScale := lerp 0.5 1.65 scaleNormalized
  let brightness := lerp 0.35 1.2 scaleNormalized
  { coreScale := coreScale
    glowScale := 2.4 * coreScale
    brightness := brightness
    toneMappingExposure := 0.6 + brightness * 1.3
    sphereOpacity := 0.35 + brightness * 0.45
    chaos := max 0 (scaleNormalized - 0.78)
    scaleFactor := lerp 0.85 2.4 scaleNormalized
    ringOpacity := 0.4 + brightness * 0.5
    ringSize := lerp 1.2 2.5 scaleNormalized }

/-- The field `this.mu` set in the constructor of `SaturnSystem`. -/
def mu : K := 500.0

/-- The radius drawn in `createRing`: `26 + Math.random() * 28`, with the
random draw `u` made explicit. -/
def ringRadius (u : K) : K := 26 + u * 28

end Field

/-- `distance(a, b)` of `src/main.js` (lines 185-190). -/
noncomputable def distance (a b : Vec3 ℝ) : ℝ :=
  let dx := a.x - b.x
  let dy := a.y - b.y
  let dz := a.z - b.z
  Real.sqrt (dx * dx + dy * dy + dz * dz)

/-- `computeOpenness(landmarks)` of `src/main.js` (lines 164-183). -/
noncomputable def computeOpenness (landmarks : Fin 21 → Vec3 ℝ) : ℝ :=
  let wrist := landmarks 0
  let indexTip := landmarks 8
  let middleTip := landmarks 12
  let ringTip := landmarks 16
  let pinkyTip := landmarks 20
  let thumbTip := landmarks 4
  let palmCenter := average [wrist, landmarks 5, landmarks 9, landmarks 13, landmarks 17]
  let spread :=
    distance indexTip palmCenter +
    distance middleTip palmCenter +
    distance ringTip palmCenter +
    distance pinkyTip palmCenter +
    distance thumbTip palmCenter
  let minSpread : ℝ := 0.5
  let maxSpread : ℝ := 2.2
  clamp ((spread - minSpread) / (maxSpread - minSpread)) 0 1

/-- The callback passed to `hands.onResults` (lines 125-137): `none` stands for
a result without hand landmarks, `some lm` for `multiHandLandmarks[0] = lm`. -/
noncomputable def onResults (results : Option (Fin 21 → Vec3 ℝ)) (gesture : Gesture ℝ) :
    Gesture ℝ :=
  match results with
  | none => { gesture with hasHand := false }
  | some lm =>
    let openness := computeOpenness lm
    { hasHand := true, openness := lerp gesture.openness openness 0.15 }

/-- The value `createRing` stores in `angularVelocities[i]` (line 263) for a
particle of radius `r`, where `mult` is the value of `randFloat(0.8, 1.2)`. -/
noncomputable def angularVelocity (r mult : ℝ) : ℝ :=
  Real.sqrt (mu / r ^ 3) * mult

/-- The pair `(radii[i], angularVelocities[i])` made by one iteration of the
loop of `createRing`, from its two random draws. -/
noncomputable def createRingParticle (uRadius uMult : ℝ) : ℝ × ℝ :=
  let r := ringRadius uRadius
  (r, angularVelocity r (randFloat 0.8 1.2 uMult))

/-- The state of `gesture` after a sequence of detector results, oldest first. -/
noncomputable def runResults (gesture : Gesture ℝ)
    (results : List (Option (Fin 21 → Vec3 ℝ))) : Gesture ℝ :=
  results.foldl (fun g r => onResults r g) gesture

/-- The scalar that `animate` of `src/main.js` passes to `saturnSystem.update`
(line 351); `now` is the value of `performance.now()`. -/
noncomputable def animateOpenness (gesture : Gesture ℝ) (now : ℝ) : ℝ :=
  if gesture.hasHand then gesture.openness else 0.5 + Real.sin (now * 0.0007) * 0.25

end Main

/-! ## Non-finite JavaScript numbers

`JSNum` adds `NaN` and the two infinities to the real numbers. Arithmetic on
finite values is exact (rounding, overflow and the sign of zero are not
modelled); the special values follow IEEE 754 as JavaScript implements it. -/

/-- A JavaScript number: `NaN`, `-Infinity`, a finite value or `Infinity`. -/
inductive JSNum where
  | nan
  | negInf
  | fin (x : ℝ)
  | posInf

namespace JSNum

/-- JavaScript unary minus. -/
def neg : JSNum → JSNum
  | nan => nan
  | negInf => posInf
  | fin x => fin (-x)
  | posInf => negInf

/-- JavaScript `a + b`: `Infinity + -Infinity` is `NaN`. -/
def add : JSNum → JSNum → JSNum
  | nan, _ => nan
  | _, nan => nan
  | fin x, fin y => fin (x + y)
  | posInf, negInf => nan
  | negInf, posInf => nan
  | posInf, _ => posInf
  | negInf, _ => negInf
  | fin _, posInf => posInf
  | fin _, negInf => negInf

/-- JavaScript `a - b`. -/
def sub (a b : JSNum) : JSNum := add a (neg b)

/-- An infinity times a finite factor `x`: `NaN` when `x` is zero, otherwise
the infinity with the sign of the product. -/
noncomputable def scaleInf (positive : Bool) (x : ℝ) : JSNum :=
  if x = 0 then nan
  else if 0 < x then (if positive then posInf else negInf)
  else (if positive then negInf else posInf)

/-- JavaScript `a * b`: `Infinity * 0` is `NaN`. -/
noncomputable def mul : JSNum → JSNum → JSNum
  | nan, _ => nan
  | _, nan => nan
  | fin x, fin y => fin (x * y)
  | posInf, posInf => posInf
  | negInf, negInf => posInf
  | posInf, negInf => negInf
  | negInf, posInf => negInf
  | posInf, fin y => scaleInf true y
  | negInf, fin y => scaleInf false y
  | fin x, posInf => scaleInf true x
  | fin x, negInf => scaleInf false x

/-- JavaScript `a / b`: a finite value over an infinity is zero, an infinity
over an infinity and `0 / 0` are `NaN`, and a non-zero value over zero is an
infinity. -/
noncomputable def div : JSNum → JSNum → JSNum
  | nan, _ => nan
  | _, nan => nan
  | fin x, fin y =>
    if y = 0 then (if x = 0 then nan else if 0 < x then posInf else negInf)
    else fin (x / y)
  | fin _, posInf => fin 0
  | fin _, negInf => fin 0
  | posInf, fin y => if 0 ≤ y then posInf else negInf
  | negInf, fin y => if 0 ≤ y then negInf else posInf
  | posInf, posInf => nan
  | posInf, negInf => nan
  | negInf, posInf => nan
  | negInf, negInf => nan

/-- JavaScript `Math.sqrt`: `NaN` on negative arguments. -/
noncomputable def sqrt : JSNum → JSNum
  | nan => nan
  | negInf => nan
  | fin x => if x < 0 then nan else fin (Real.sqrt x)
  | posInf => posInf

/-- JavaScript `Math.max(a, b)`: `NaN` as soon as one argument is `NaN`. -/
noncomputable def max : JSNum → JSNum → JSNum
  | nan, _ => nan
  | _, nan => nan
  | posInf, _ => posInf
  | _, posInf => posInf
  | negInf, b => b
  | a, negInf => a
  | fin x, fin y => fin (Max.max x y)

/-- JavaScript `Math.min(a, b)`: `NaN` as soon as one argument is `NaN`. -/
noncomputable def min : JSNum → JSNum → JSNum
  | nan, _ => nan
  | _, nan => nan
  | negInf, _ => negInf
  | _, negInf => negInf
  | posInf, b => b
  | a, posInf => a
  | fin x, fin y => fin (Min.min x y)

instance : Add JSNum := ⟨add⟩
instance : Sub JSNum := ⟨sub⟩
noncomputable instance : Mul JSNum := ⟨mul⟩
noncomputable instance : Div JSNum := ⟨div⟩

end JSNum

/-! The extractors and the writes that depend on them, evaluated on `JSNum`. -/

namespace JS

open JSNum

/-- three.js `lerp(x, y, t)`: `return (1 - t) * x + t * y`. -/
noncomputable def lerp (x y t : JSNum) : JSNum := (fin 1 - t) * x + t * y

/-- three.js `clamp(value, min, max)`:
`return Math.max(min, Math.min(max, value))`. -/
noncomputable def clamp (value lo hi : JSNum) : JSNum := JSNum.max lo (JSNum.min hi value)

/-- The value `mapGestureToSpread(openness)` of `src/app.js` assigns to
`targetSpread`. -/
noncomputable def mapGestureToSpread (openness : JSNum) : JSNum :=
  lerp (fin (App.params : App.Params ℝ).minSpread) (fin (App.params : App.Params ℝ).maxSpread)
    openness

/-- The palm centre of `computeHandOpenness` in `src/app.js`. -/
noncomputable def palmCenter (landmarks : Fin 21 → Vec3 JSNum) : Vec3 JSNum :=
  let sum := App.palmIndices.foldl
    (fun (sum : Vec3 JSNum) idx =>
      let lm := landmarks idx
      { x := sum.x + lm.x, y := sum.y + lm.y, z := sum.z + lm.z })
    { x := fin 0, y := fin 0, z := fin 0 }
  { x := sum.x / fin (App.palmIndices.length : ℝ)
    y := sum.y / fin (App.palmIndices.length : ℝ)
    z := sum.z / fin (App.palmIndices.length : ℝ) }

/-- `computeHandOpenness(landmarks)` of `src/app.js` (lines 237-259). -/
noncomputable def computeHandOpenness (landmarks : Fin 21 → Vec3 JSNum) : JSNum :=
  let palm := palmCenter landmarks
  let total := App.tipIndices.foldl
    (fun (total : JSNum) idx =>
      let lm := landmarks idx
      let dx := lm.x - palm.x
      let dy := lm.y - palm.y
      let dz := lm.z - palm.z
      total + JSNum.sqrt (dx * dx + dy * dy + dz * dz))
    (fin 0)
  let avg := total / fin (App.tipIndices.length : ℝ)
  clamp ((avg - fin 0.05) / fin 0.18) (fin 0) (fin 1)

/-- `distance(a, b)` of `src/main.js`. -/
noncomputable def distance (a b : Vec3 JSNum) : JSNum :=
  let dx := a.x - b.x
  let dy := a.y - b.y
  let dz := a.z - b.z
  JSNum.sqrt (dx * dx + dy * dy + dz * dz)

/-- `average(points)` of `src/main.js`. -/
noncomputable def average (points : List (Vec3 JSNum)) : Vec3 JSNum :=
  let sum := points.foldl
    (fun (acc : Vec3 JSNum) p => { x := acc.x + p.x, y := acc.y + p.y, z := acc.z + p.z })
    { x := fin 0, y := fin 0, z := fin 0 }
  { x := sum.x / fin (points.length : ℝ)
    y := sum.y / fin (points.length : ℝ)
    z := sum.z / fin (points.length : ℝ) }

/-- `computeOpenness(landmarks)` of `src/main.js` (lines 164-183). -/
noncomputable def computeOpenness (landmarks : Fin 21 → Vec3 JSNum) : JSNum :=
  let wrist := landmarks 0
  let indexTip := landmarks 8
  let middleTip := landmarks 12
  let ringTip := landmarks 16
  let pinkyTip := landmarks 20
  let thumbTip := landmarks 4
  let palmCenter := average [wrist, landmarks 5, landmarks 9, landmarks 13, landmarks 17]
  let spread :=
    distance indexTip palmCenter +
    distance middleTip palmCenter +
    distance ringTip palmCenter +
    distance pinkyTip palmCenter +
    distance thumbTip palmCenter
  let minSpread : JSNum := fin 0.5
  let maxSpread : JSNum := fin 2.2
  clamp ((spread - minSpread) / (maxSpread - minSpread)) (fin 0) (fin 1)

/-- The value the `onResults` callback of `src/main.js` writes to
`gesture.openness` when the result holds the landmarks `lm`. -/
noncomputable def onResultsOpenness (lm : Fin 21 → Vec3 JSNum) (previous : JSNum) : JSNum :=
  let openness := computeOpenness lm
  lerp previous openness (fin 0.15)

/-- A list of landmarks with finite coordinates, as JavaScript numbers. -/
def ofReal (landmarks : Fin 21 → Vec3 ℝ) : Fin 21 → Vec3 JSNum :=
  fun i => { x := fin (landmarks i).x, y := fin (landmarks i).y, z := fin (landmarks i).z }

/-- A degenerate detector result: every coordinate is an ordinary number
except the `x` coordinate of landmark 8 (the index fingertip), which is `NaN`. -/
noncomputable def nanLandmarks : Fin 21 → Vec3 JSNum :=
  fun i => if i = 8 then { x := nan, y := fin 0.5, z := fin 0 }
    else { x := fin 0.5, y := fin 0.5, z := fin 0 }

/-- A degenerate detector result: the `x` coordinate of every landmark is
`Infinity`. -/
noncomputable def infLandmarks : Fin 21 → Vec3 JSNum :=
  fun _ => { x := posInf, y := fin 0.5, z := fin 0 }

end JS

/-! ## Shared lemmas -/

namespace MathUtils

variable {K : Type} [LinearOrderedField K]

theorem lerp_eq_add (x y t : K) : lerp x y t = x + t * (y - x) := by
  unfold lerp; ring

theorem sub_lerp (x y t : K) : y - lerp x y t = (1 - t) * (y - x) := by
  unfold lerp; ring

theorem lerp_sub_left (x y t : K) : lerp x y t - x = t * (y - x) := by
  unfold lerp; ring

theorem lerp_mem {lo hi x y t : K} (ht0 : 0 ≤ t) (ht1 : t ≤ 1)
    (hx : lo ≤ x ∧ x ≤ hi) (hy : lo ≤ y ∧ y ≤ hi) :
    lo ≤ lerp x y t ∧ lerp x y t ≤ hi := by
  have h1 : 0 ≤ 1 - t := by linarith
  unfold lerp
  constructor
  · nlinarith [mul_nonneg h1 (sub_nonneg.2 hx.1), mul_nonneg ht0 (sub_nonneg.2 hy.1)]
  · nlinarith [mul_nonneg h1 (sub_nonneg.2 hx.2), mul_nonneg ht0 (sub_nonneg.2 hy.2)]

theorem lerp_mono_right {x y : K} (hxy : x ≤ y) {t₁ t₂ : K} (ht : t₁ ≤ t₂) :
    lerp x y t₁ ≤ lerp x y t₂ := by
  rw [lerp_eq_add, lerp_eq_add]
  nlinarith [mul_nonneg (sub_nonneg.2 ht) (sub_nonneg.2 hxy)]

theorem clamp_mem (v : K) {lo hi : K} (h : lo ≤ hi) :
    lo ≤ clamp v lo hi ∧ clamp v lo hi ≤ hi := by
  unfold clamp
  exact ⟨le_max_left _ _, max_le h (min_le_left _ _)⟩

theorem clamp_mono {v w : K} (h : v ≤ w) (lo hi : K) : clamp v lo hi ≤ clamp w lo hi := by
  unfold clamp
  exact max_le_max le_rfl (min_le_min le_rfl h)

theorem clamp_of_mem {v lo hi : K} (h₁ : lo ≤ v) (h₂ : v ≤ hi) : clamp v lo hi = v := by
  unfold clamp
  rw [min_eq_right h₂, max_eq_right h₁]

end MathUtils

namespace App

open MathUtils

theorem computeHandOpenness_mem (landmarks : Fin 21 → Vec3 ℝ) :
    0 ≤ computeHandOpenness landmarks ∧ computeHandOpenness landmarks ≤ 1 := by
  unfold computeHandOpenness
  exact clamp_mem _ zero_le_one

theorem mapGestureToSpread_mem {o : ℝ} (h0 : 0 ≤ o) (h1 : o ≤ 1) :
    (0.62 : ℝ) ≤ mapGestureToSpread o ∧ mapGestureToSpread o ≤ 2.6 := by
  unfold mapGestureToSpread params
  exact lerp_mem h0 h1 ⟨le_rfl, by norm_num⟩ ⟨by norm_num, le_rfl⟩

theorem brownianTarget_nonneg (c : ℝ) : 0 ≤ brownianTarget c := by
  unfold brownianTarget
  split_ifs <;> norm_num

theorem inv_init : Inv (init : State ℝ) := by
  unfold Inv init
  norm_num

theorem inv_step (s : State ℝ) (e : Event) (h : Inv s) : Inv (step s e) := by
  obtain ⟨hc, ht, hb⟩ := h
  cases e with
  | tick delta =>
    refine ⟨?_, ht, ?_⟩
    · exact lerp_mem (by norm_num) (by norm_num) hc ht
    · exact (@lerp_mem ℝ _ 0 (max s.brownianForce (brownianTarget _)) _ _ _
        (by norm_num) (by norm_num) ⟨hb, le_max_left _ _⟩
        ⟨brownianTarget_nonneg _, le_max_right _ _⟩).1
  | hand landmarks =>
    refine ⟨hc, ?_, hb⟩
    exact mapGestureToSpread_mem (computeHandOpenness_mem _).1 (computeHandOpenness_mem _).2
  | noHand =>
    refine ⟨hc, ?_, hb⟩
    exact lerp_mem (by norm_num) (by norm_num) ht ⟨by norm_num, by norm_num⟩

theorem inv_run (events : List Event) : ∀ s : State ℝ, Inv s → Inv (run s events) := by
  induction events with
  | nil => intro s h; exact h
  | cons e es ih => intro s h; exact ih (step s e) (inv_step s e h)

end App

/-! ## Claims about `src/app.js` -/

/-- C1: starting from the initial state of `src/app.js`, after every finite
sequence of animate ticks, detections with a hand (any 21 real landmarks) and
detections without a hand, `currentSpread` lies in
`[params.minSpread, params.maxSpread] = [0.62, 2.6]` and `brownianForce` is
not negative. -/
theorem C1_spread_and_force_invariant (events : List App.Event) :
    ((App.params : App.Params ℝ).minSpread = 0.62 ∧
      (App.params : App.Params ℝ).maxSpread = 2.6) ∧
    (App.params : App.Params ℝ).minSpread ≤ (App.run App.init events).currentSpread ∧
    (App.run App.init events).currentSpread ≤ (App.params : App.Params ℝ).maxSpread ∧
    0 ≤ (App.run App.init events).brownianForce := by
  obtain ⟨hc, _, hb⟩ := App.inv_run events App.init App.inv_init
  exact ⟨⟨rfl, rfl⟩, hc.1, hc.2, hb⟩

/-- C2: one frame of `animate` replaces `currentSpread = c` by
`lerp(c, t, 0.06)` where `t` is `targetSpread`; the new value lies between `c`
and `t` inclusive, strictly between them when `c ≠ t`, and on the same side of
`t` as `c` (the sign of `t - c` is kept), so it never overshoots. -/
theorem C2_animate_never_overshoots (delta : ℝ) (s : App.State ℝ) :
    (App.animate delta s).currentSpread
        = MathUtils.lerp s.currentSpread s.targetSpread 0.06 ∧
    min s.currentSpread s.targetSpread ≤ (App.animate delta s).currentSpread ∧
    (App.animate delta s).currentSpread ≤ max s.currentSpread s.targetSpread ∧
    (s.currentSpread ≠ s.targetSpread →
      min s.currentSpread s.targetSpread < (App.animate delta s).currentSpread ∧
      (App.animate delta s).currentSpread < max s.currentSpread s.targetSpread) ∧
    SignType.sign (s.targetSpread - (App.animate delta s).currentSpread)
      = SignType.sign (s.targetSpread - s.currentSpread) := by
  have hcs : (App.animate delta s).currentSpread
      = MathUtils.lerp s.currentSpread s.targetSpread 0.06 := rfl
  rw [hcs]
  have hl : MathUtils.lerp s.currentSpread s.targetSpread 0.06
      = s.currentSpread + 0.06 * (s.targetSpread - s.currentSpread) :=
    MathUtils.lerp_eq_add _ _ _
  rw [hl]
  refine ⟨rfl, ?_, ?_, ?_, ?_⟩
  · rcases le_total s.currentSpread s.targetSpread with h | h
    · rw [min_eq_left h]; linarith
    · rw [min_eq_right h]; linarith
  · rcases le_total s.currentSpread s.targetSpread with h | h
    · rw [max_eq_right h]; linarith
    · rw [max_eq_left h]; linarith
  · intro hne
    rcases lt_or_gt_of_ne hne with h | h
    · rw [min_eq_left h.le, max_eq_right h.le]; constructor <;> linarith
    · rw [min_eq_right h.le, max_eq_left h.le]; constructor <;> linarith
  · have e : s.targetSpread - (s.currentSpread + 0.06 * (s.targetSpread - s.currentSpread))
        = 0.94 * (s.targetSpread - s.currentSpread) := by ring
    rw [e, sign_mul]
    have : SignType.sign (0.94 : ℝ) = 1 := sign_pos (by norm_num)
    rw [this, one_mul]

/-- C2, evaluated: from `currentSpread = 1` with `targetSpread = 2` one frame
gives a value strictly between the two. -/
theorem C2_animate_never_overshoots_witness :
    (1 : ℝ) ≠ 2 ∧
    min (1 : ℝ) 2 < (App.animate 0 (⟨0, 2, 1, 0, false⟩ : App.State ℝ)).currentSpread ∧
    (App.animate 0 (⟨0, 2, 1, 0, false⟩ : App.State ℝ)).currentSpread < max (1 : ℝ) 2 :=
  ⟨by norm_num,
    (C2_animate_never_overshoots 0 ⟨0, 2, 1, 0, false⟩).2.2.2.1 (by norm_num)⟩

/-- C3: for openness in `[0, 1]` the `targetSpread` written by
`mapGestureToSpread` is monotonically non-decreasing in the openness, lies in
`[minSpread, maxSpread]`, and is `0.62` at openness 0 and `2.6` at openness 1. -/
theorem C3_mapGestureToSpread_monotone_bounded :
    (∀ o₁ o₂ : ℝ, 0 ≤ o₁ → o₁ ≤ o₂ → o₂ ≤ 1 →
      App.mapGestureToSpread o₁ ≤ App.mapGestureToSpread o₂) ∧
    (∀ o : ℝ, 0 ≤ o → o ≤ 1 →
      (App.params : App.Params ℝ).minSpread ≤ App.mapGestureToSpread o ∧
      App.mapGestureToSpread o ≤ (App.params : App.Params ℝ).maxSpread) ∧
    App.mapGestureToSpread (0 : ℝ) = 0.62 ∧
    App.mapGestureToSpread (1 : ℝ) = 2.6 := by
  refine ⟨?_, ?_, ?_, ?_⟩
  · intro o₁ o₂ _ h _
    unfold App.mapGestureToSpread App.params
    exact MathUtils.lerp_mono_right (by norm_num) h
  · intro o h0 h1
    exact App.mapGestureToSpread_mem h0 h1
  · unfold App.mapGestureToSpread App.params MathUtils.lerp; norm_num
  · unfold App.mapGestureToSpread App.params MathUtils.lerp; norm_num

/-- C3, evaluated at openness `1/4 ≤ 1/2`. -/
theorem C3_mapGestureToSpread_monotone_bounded_witness :
    App.mapGestureToSpread (1 / 4 : ℝ) ≤ App.mapGestureToSpread (1 / 2 : ℝ) :=
  C3_mapGestureToSpread_monotone_bounded.1 (1 / 4) (1 / 2)
    (by norm_num) (by norm_num) (by norm_num)

/-- C4: for every real `currentSpread`, also outside `[minSpread, maxSpread]`,
the brightness computed in `animate` lies in
`[baseBrightness, maxBrightness] = [0.28, 1.4]` and is non-decreasing in
`currentSpread`; the opacity `clamp(brightness, 0.2, 1.0)` and the size
`1.1 + 1.5 * brightness` set by `updateCore` are non-decreasing in
`currentSpread` and lie in `[0.2, 1.0]` and `[1.52, 3.2]`. -/
theorem C4_brightness_opacity_size :
    ((App.params : App.Params ℝ).baseBrightness = 0.28 ∧
      (App.params : App.Params ℝ).maxBrightness = 1.4) ∧
    (∀ c : ℝ, (0.28 : ℝ) ≤ App.brightness c ∧ App.brightness c ≤ 1.4) ∧
    (∀ c₁ c₂ : ℝ, c₁ ≤ c₂ → App.brightness c₁ ≤ App.brightness c₂) ∧
    (∀ c : ℝ, App.coreOpacity (App.brightness c) = MathUtils.clamp (App.brightness c) 0.2 1.0 ∧
      (0.2 : ℝ) ≤ App.coreOpacity (App.brightness c) ∧
      App.coreOpacity (App.brightness c) ≤ 1.0) ∧
    (∀ c : ℝ, App.coreSize (App.brightness c) = 1.1 + 1.5 * App.brightness c ∧
      (1.52 : ℝ) ≤ App.coreSize (App.brightness c) ∧
      App.coreSize (App.brightness c) ≤ 3.2) ∧
    (∀ c₁ c₂ : ℝ, c₁ ≤ c₂ →
      App.coreOpacity (App.brightness c₁) ≤ App.coreOpacity (App.brightness c₂) ∧
      App.coreSize (App.brightness c₁) ≤ App.coreSize (App.brightness c₂)) := by
  have hb : ∀ c : ℝ, (0.28 : ℝ) ≤ App.brightness c ∧ App.brightness c ≤ 1.4 := by
    intro c
    unfold App.brightness App.params
    exact MathUtils.clamp_mem _ (by norm_num)
  have hm : ∀ c₁ c₂ : ℝ, c₁ ≤ c₂ → App.brightness c₁ ≤ App.brightness c₂ := by
    intro c₁ c₂ h
    unfold App.brightness App.params
    apply MathUtils.clamp_mono
    simp only
    have h1 : (c₁ - 0.62) / (2.6 - 0.62) ≤ (c₂ - 0.62) / (2.6 - 0.62) :=
      div_le_div_of_nonneg_right (by linarith) (by norm_num)
    nlinarith
  refine ⟨⟨rfl, rfl⟩, hb, hm, ?_, ?_, ?_⟩
  · intro c
    refine ⟨rfl, ?_⟩
    unfold App.coreOpacity
    exact MathUtils.clamp_mem _ (by norm_num)
  · intro c
    have := hb c
    unfold App.coreSize
    refine ⟨by ring, by linarith, by linarith⟩
  · intro c₁ c₂ h
    have := hm c₁ c₂ h
    unfold App.coreOpacity App.coreSize
    exact ⟨MathUtils.clamp_mono this _ _, by linarith⟩

/-- C4, evaluated at `currentSpread` -3 and 7, both outside the spread range. -/
theorem C4_brightness_opacity_size_witness :
    App.brightness (-3 : ℝ) ≤ App.brightness (7 : ℝ) :=
  C4_brightness_opacity_size.2.2.1 (-3) 7 (by norm_num)

/-! ## Claims about `src/main.js` -/

/-- C5 (as stated) fails: `SaturnSystem.update` uses the unclamped `lerp`, so
for `scaleNormalized = 1.7` the brightness is `1.795 > 1.2` and for
`scaleNormalized = -3` the ring point size is `-2.7 < 1.2`. -/
theorem C5_out_of_range_counterexample :
    ¬ ((Main.update (1.7 : ℝ)).brightness ≤ 1.2) ∧
    ¬ ((1.2 : ℝ) ≤ (Main.update (-3 : ℝ)).ringSize) := by
  unfold Main.update MathUtils.lerp
  norm_num

/-- C5 (amended): for `scaleNormalized` in `[0, 1]` the values derived in
`SaturnSystem.update` and `animateRing` stay within their `lerp` bounds,
brightness in `[0.35, 1.2]`, coreScale in `[0.5, 1.65]`, ring scaleFactor in
`[0.85, 2.4]`, ring point size in `[1.2, 2.5]`; and each of the four is
non-decreasing in `scaleNormalized` over all reals. -/
theorem C5_update_bounds_on_unit_interval :
    (∀ x : ℝ, 0 ≤ x → x ≤ 1 →
      ((0.35 : ℝ) ≤ (Main.update x).brightness ∧ (Main.update x).brightness ≤ 1.2) ∧
      ((0.5 : ℝ) ≤ (Main.update x).coreScale ∧ (Main.update x).coreScale ≤ 1.65) ∧
      ((0.85 : ℝ) ≤ (Main.update x).scaleFactor ∧ (Main.update x).scaleFactor ≤ 2.4) ∧
      ((1.2 : ℝ) ≤ (Main.update x).ringSize ∧ (Main.update x).ringSize ≤ 2.5)) ∧
    (∀ x y : ℝ, x ≤ y →
      (Main.update x).brightness ≤ (Main.update y).brightness ∧
      (Main.update x).coreScale ≤ (Main.update y).coreScale ∧
      (Main.update x).scaleFactor ≤ (Main.update y).scaleFactor ∧
      (Main.update x).ringSize ≤ (Main.update y).ringSize) := by
  constructor
  · intro x h0 h1
    unfold Main.update
    exact ⟨MathUtils.lerp_mem h0 h1 ⟨le_rfl, by norm_num⟩ ⟨by norm_num, le_rfl⟩,
      MathUtils.lerp_mem h0 h1 ⟨le_rfl, by norm_num⟩ ⟨by norm_num, le_rfl⟩,
      MathUtils.lerp_mem h0 h1 ⟨le_rfl, by norm_num⟩ ⟨by norm_num, le_rfl⟩,
      MathUtils.lerp_mem h0 h1 ⟨le_rfl, by norm_num⟩ ⟨by norm_num, le_rfl⟩⟩
  · intro x y h
    unfold Main.update
    exact ⟨MathUtils.lerp_mono_right (by norm_num) h,
      MathUtils.lerp_mono_right (by norm_num) h,
      MathUtils.lerp_mono_right (by norm_num) h,
      MathUtils.lerp_mono_right (by norm_num) h⟩

/-- C5 (amended), evaluated at `scaleNormalized = 1/2`. -/
theorem C5_update_bounds_on_unit_interval_witness :
    (0.35 : ℝ) ≤ (Main.update (1 / 2 : ℝ)).brightness ∧
    (Main.update (1 / 2 : ℝ)).brightness ≤ 1.2 :=
  (C5_update_bounds_on_unit_interval.1 (1 / 2) (by norm_num) (by norm_num)).1

/-! ## Non-finite inputs of the extractors -/

namespace JSNum

@[simp] theorem fin_add_fin (x y : ℝ) : fin x + fin y = fin (x + y) := rfl

@[simp] theorem fin_sub_fin (x y : ℝ) : fin x - fin y = fin (x - y) := by
  show fin (x + -y) = fin (x - y)
  rw [sub_eq_add_neg]

@[simp] theorem fin_mul_fin (x y : ℝ) : fin x * fin y = fin (x * y) := rfl

theorem fin_div_fin (x : ℝ) {y : ℝ} (h : y ≠ 0) : fin x / fin y = fin (x / y) := by
  show (if y = 0 then _ else fin (x / y)) = fin (x / y)
  rw [if_neg h]

@[simp] theorem sqrt_fin_sum_sq (a b c : ℝ) :
    sqrt (fin (a * a + b * b + c * c)) = fin (Real.sqrt (a * a + b * b + c * c)) := by
  show (if a * a + b * b + c * c < 0 then nan else _) = _
  rw [if_neg (not_lt.2 (by nlinarith [mul_self_nonneg a, mul_self_nonneg b, mul_self_nonneg c]))]

@[simp] theorem max_fin_fin (x y : ℝ) : max (fin x) (fin y) = fin (Max.max x y) := rfl

@[simp] theorem min_fin_fin (x y : ℝ) : min (fin x) (fin y) = fin (Min.min x y) := rfl

@[simp] theorem nan_add (a : JSNum) : nan + a = nan := by cases a <;> rfl

@[simp] theorem add_nan (a : JSNum) : a + nan = nan := by cases a <;> rfl

@[simp] theorem nan_sub (a : JSNum) : nan - a = nan := by cases a <;> rfl

@[simp] theorem sub_nan (a : JSNum) : a - nan = nan := by cases a <;> rfl

@[simp] theorem nan_mul (a : JSNum) : nan * a = nan := by cases a <;> rfl

@[simp] theorem mul_nan (a : JSNum) : a * nan = nan := by cases a <;> rfl

@[simp] theorem nan_div (a : JSNum) : nan / a = nan := by cases a <;> rfl

@[simp] theorem div_nan (a : JSNum) : a / nan = nan := by cases a <;> rfl

@[simp] theorem sqrt_nan : sqrt nan = nan := rfl

@[simp] theorem nan_max (a : JSNum) : max nan a = nan := by cases a <;> rfl

@[simp] theorem max_nan (a : JSNum) : max a nan = nan := by cases a <;> rfl

@[simp] theorem nan_min (a : JSNum) : min nan a = nan := by cases a <;> rfl

@[simp] theorem min_nan (a : JSNum) : min a nan = nan := by cases a <;> rfl

end JSNum

namespace JS

open JSNum

theorem lerp_fin (x y t : ℝ) : lerp (fin x) (fin y) (fin t) = fin (MathUtils.lerp x y t) := by
  simp [lerp, MathUtils.lerp]

theorem clamp_fin (v lo hi : ℝ) :
    clamp (fin v) (fin lo) (fin hi) = fin (MathUtils.clamp v lo hi) := by
  simp [clamp, MathUtils.clamp]

theorem lerp_nan (x y : JSNum) : lerp x y nan = nan := by
  simp [lerp]

theorem clamp_nan (lo hi : JSNum) : clamp nan lo hi = nan := by
  simp [clamp]

theorem computeHandOpenness_ofReal (landmarks : Fin 21 → Vec3 ℝ) :
    computeHandOpenness (ofReal landmarks) = fin (App.computeHandOpenness landmarks) := by
  have h5 : ((5 : ℕ) : ℝ) ≠ 0 := by norm_num
  have h18 : (0.18 : ℝ) ≠ 0 := by norm_num
  simp only [computeHandOpenness, palmCenter, App.computeHandOpenness, App.palmCenter,
    App.palmIndices, App.tipIndices, List.foldl, List.length, ofReal, fin_add_fin,
    fin_sub_fin, fin_mul_fin, fin_div_fin _ h5, fin_div_fin _ h18, sqrt_fin_sum_sq,
    clamp_fin, zero_add]

theorem computeOpenness_ofReal (landmarks : Fin 21 → Vec3 ℝ) :
    computeOpenness (ofReal landmarks) = fin (Main.computeOpenness landmarks) := by
  have h5 : ((5 : ℕ) : ℝ) ≠ 0 := by norm_num
  have h17 : (2.2 - 0.5 : ℝ) ≠ 0 := by norm_num
  simp only [computeOpenness, average, distance, Main.computeOpenness, Main.average,
    Main.distance, List.foldl, List.length, ofReal, fin_add_fin,
    fin_sub_fin, fin_mul_fin, fin_div_fin _ h5, fin_div_fin _ h17, sqrt_fin_sum_sq,
    clamp_fin, zero_add]

end JS

/-- C6 (as stated) fails: `Math.max` and `Math.min` return `NaN` when an
argument is `NaN`, so the final `clamp` lets it through. With a detector result
whose index fingertip has `x = NaN`, both extractors return `NaN`, and so do
the `targetSpread` written by `mapGestureToSpread` and the `gesture.openness`
written by the `onResults` callback (here from the previous value 0.5). The
same happens when the `x` coordinate of every landmark is `Infinity`, because
`Infinity - Infinity` is `NaN`. -/
theorem C6_nan_landmark_counterexample :
    JS.computeHandOpenness JS.nanLandmarks = JSNum.nan ∧
    JS.computeOpenness JS.nanLandmarks = JSNum.nan ∧
    JS.mapGestureToSpread (JS.computeHandOpenness JS.nanLandmarks) = JSNum.nan ∧
    JS.onResultsOpenness JS.nanLandmarks (JSNum.fin 0.5) = JSNum.nan ∧
    JS.computeHandOpenness JS.infLandmarks = JSNum.nan ∧
    JS.computeOpenness JS.infLandmarks = JSNum.nan := by
  have h1 : JS.computeHandOpenness JS.nanLandmarks = JSNum.nan := by
    simp [JS.computeHandOpenness, JS.palmCenter, App.tipIndices, App.palmIndices,
      JS.nanLandmarks, JS.clamp_nan]
  have h2 : JS.computeOpenness JS.nanLandmarks = JSNum.nan := by
    simp [JS.computeOpenness, JS.average, JS.distance, JS.nanLandmarks, JS.clamp_nan]
  have h5 : (0 : ℝ) ≤ ((5 : ℕ) : ℝ) := by norm_num
  have hsum : JSNum.fin 0 + JSNum.posInf + JSNum.posInf + JSNum.posInf + JSNum.posInf
      + JSNum.posInf = JSNum.posInf := rfl
  have hdiv : JSNum.posInf / JSNum.fin ((5 : ℕ) : ℝ) = JSNum.posInf := by
    show (if (0 : ℝ) ≤ ((5 : ℕ) : ℝ) then JSNum.posInf else JSNum.negInf) = JSNum.posInf
    rw [if_pos h5]
  have hsub : JSNum.posInf - JSNum.posInf = JSNum.nan := rfl
  have h3 : JS.computeHandOpenness JS.infLandmarks = JSNum.nan := by
    simp only [JS.computeHandOpenness, JS.palmCenter, App.tipIndices, App.palmIndices,
      JS.infLandmarks, List.foldl, List.length, zero_add, hsum, hdiv, hsub,
      JSNum.nan_mul, JSNum.nan_add, JSNum.add_nan, JSNum.sqrt_nan, JSNum.nan_div,
      JSNum.nan_sub, JS.clamp_nan]
  have h4 : JS.computeOpenness JS.infLandmarks = JSNum.nan := by
    simp only [JS.computeOpenness, JS.average, JS.distance,
      JS.infLandmarks, List.foldl, List.length, zero_add, hsum, hdiv, hsub,
      JSNum.nan_mul, JSNum.nan_add, JSNum.add_nan, JSNum.sqrt_nan, JSNum.nan_div,
      JSNum.nan_sub, JS.clamp_nan]
  refine ⟨h1, h2, ?_, ?_, h3, h4⟩
  · rw [h1]; exact JS.lerp_nan _ _
  · unfold JS.onResultsOpenness
    rw [h2]
    simp [JS.lerp]

/-- C6 (amended): for every list of 21 landmarks whose coordinates are
ordinary (finite) numbers, `computeHandOpenness` and `computeOpenness`
return an ordinary number in `[0, 1]`, the `targetSpread` written by
`mapGestureToSpread` is an ordinary number, and so is the `gesture.openness`
written by the `onResults` callback from an ordinary previous value. -/
theorem C6_finite_landmarks_give_openness_in_unit_interval
    (landmarks : Fin 21 → Vec3 ℝ) (previous : ℝ) :
    (JS.computeHandOpenness (JS.ofReal landmarks) = JSNum.fin (App.computeHandOpenness landmarks) ∧
      0 ≤ App.computeHandOpenness landmarks ∧ App.computeHandOpenness landmarks ≤ 1) ∧
    (JS.computeOpenness (JS.ofReal landmarks) = JSNum.fin (Main.computeOpenness landmarks) ∧
      0 ≤ Main.computeOpenness landmarks ∧ Main.computeOpenness landmarks ≤ 1) ∧
    JS.mapGestureToSpread (JS.computeHandOpenness (JS.ofReal landmarks))
      = JSNum.fin (App.mapGestureToSpread (App.computeHandOpenness landmarks)) ∧
    JS.onResultsOpenness (JS.ofReal landmarks) (JSNum.fin previous)
      = JSNum.fin (Main.onResults (some landmarks) ⟨previous, false⟩).openness := by
  refine ⟨⟨JS.computeHandOpenness_ofReal _, App.computeHandOpenness_mem _⟩,
    ⟨JS.computeOpenness_ofReal _, ?_⟩, ?_, ?_⟩
  · unfold Main.computeOpenness
    exact MathUtils.clamp_mem _ zero_le_one
  · rw [JS.computeHandOpenness_ofReal]
    exact JS.lerp_fin _ _ _
  · unfold JS.onResultsOpenness
    rw [JS.computeOpenness_ofReal]
    exact JS.lerp_fin _ _ _

/-- C7 (as stated) fails: the random multiplier can reverse the Kepler order.
With radii `26 < 27`, both in `[26, 54]`, and multipliers `0.8` and `1.1`, both
in `[0.8, 1.2]`, the particle of smaller radius has the smaller stored angular
velocity; `createRing` makes these two particles from the random draws
`(0, 0)` and `(1/28, 3/4)`. -/
theorem C7_multiplier_reverses_order_counterexample :
    ((0 : ℝ) ≤ 0 ∧ (0 : ℝ) < 1 ∧ (0 : ℝ) ≤ 1 / 28 ∧ (1 / 28 : ℝ) < 1 ∧
      (0 : ℝ) ≤ 3 / 4 ∧ (3 / 4 : ℝ) < 1) ∧
    Main.createRingParticle 0 0 = (26, Main.angularVelocity 26 0.8) ∧
    Main.createRingParticle (1 / 28) (3 / 4) = (27, Main.angularVelocity 27 1.1) ∧
    (26 : ℝ) < 27 ∧ Main.angularVelocity 26 0.8 < Main.angularVelocity 27 1.1 := by
  refine ⟨by norm_num, ?_, ?_, by norm_num, ?_⟩
  · unfold Main.createRingParticle Main.ringRadius MathUtils.randFloat
    norm_num
  · unfold Main.createRingParticle Main.ringRadius MathUtils.randFloat
    norm_num
  unfold Main.angularVelocity Main.mu
  have hA : (0 : ℝ) ≤ 500.0 / 26 ^ 3 := by norm_num
  have hB : (0 : ℝ) ≤ 500.0 / 27 ^ 3 := by norm_num
  have ha := Real.sq_sqrt hA
  have hb := Real.sq_sqrt hB
  have ha0 := Real.sqrt_nonneg (500.0 / 26 ^ 3 : ℝ)
  have hb0 := Real.sqrt_nonneg (500.0 / 27 ^ 3 : ℝ)
  have hbpos : 0 < Real.sqrt (500.0 / 27 ^ 3 : ℝ) := Real.sqrt_pos.2 (by norm_num)
  by_contra hcon
  push_neg at hcon
  have h1 : (Real.sqrt (500.0 / 27 ^ 3 : ℝ) * 1.1) ^ 2
      ≤ (Real.sqrt (500.0 / 26 ^ 3 : ℝ) * 0.8) ^ 2 :=
    pow_le_pow_left₀ (by positivity) hcon 2
  rw [mul_pow, mul_pow, ha, hb] at h1
  norm_num at h1

/-- C7 (amended): every angular velocity stored by `createRing`,
`sqrt(mu / r^3) * m` with `mu = 500`, `r` in `[26, 54]` and `m` in
`[0.8, 1.2]`, is strictly positive; and for two particles with
`radii[i] < radii[j]` whose multipliers satisfy `m_j ≤ m_i` (in particular
equal multipliers) the stored angular velocity of `i` is strictly larger. -/
theorem C7_angular_velocity_positive_and_kepler_order :
    (∀ r m : ℝ, 26 ≤ r → r ≤ 54 → 0.8 ≤ m → m ≤ 1.2 → 0 < Main.angularVelocity r m) ∧
    (∀ ri rj mi mj : ℝ, 26 ≤ ri → ri < rj → rj ≤ 54 → 0.8 ≤ mj → mj ≤ mi → mi ≤ 1.2 →
      Main.angularVelocity rj mj < Main.angularVelocity ri mi) := by
  have hpos : ∀ r : ℝ, 26 ≤ r → 0 < (Main.mu : ℝ) / r ^ 3 := by
    intro r hr
    have : 0 < r := by linarith
    unfold Main.mu
    positivity
  constructor
  · intro r m hr _ hm _
    unfold Main.angularVelocity
    exact mul_pos (Real.sqrt_pos.2 (hpos r hr)) (by linarith)
  · intro ri rj mi mj hri hlt _ hmj hmij _
    unfold Main.angularVelocity
    have hri0 : 0 < ri := by linarith
    have hcube : ri ^ 3 < rj ^ 3 := pow_lt_pow_left₀ hlt hri0.le (by norm_num)
    have hdiv : (Main.mu : ℝ) / rj ^ 3 < Main.mu / ri ^ 3 :=
      div_lt_div_of_pos_left (by unfold Main.mu; norm_num) (by positivity) hcube
    have hsqrt : Real.sqrt (Main.mu / rj ^ 3) < Real.sqrt (Main.mu / ri ^ 3) :=
      Real.sqrt_lt_sqrt (hpos rj (by linarith)).le hdiv
    have hmj0 : (0 : ℝ) < mj := by linarith
    calc Real.sqrt (Main.mu / rj ^ 3) * mj
        < Real.sqrt (Main.mu / ri ^ 3) * mj := mul_lt_mul_of_pos_right hsqrt hmj0
      _ ≤ Real.sqrt (Main.mu / ri ^ 3) * mi :=
        mul_le_mul_of_nonneg_left hmij (Real.sqrt_nonneg _)

/-- C7 (amended), evaluated at radii 26 and 27 with the common multiplier 1. -/
theorem C7_angular_velocity_positive_and_kepler_order_witness :
    Main.angularVelocity 27 1 < Main.angularVelocity 26 1 :=
  C7_angular_velocity_positive_and_kepler_order.2 26 27 1 1
    (by norm_num) (by norm_num) (by norm_num) (by norm_num) (by norm_num) (by norm_num)

/-! ## Relaxation without a hand and sustained openness (`src/app.js`) -/

namespace App

open MathUtils

theorem run_cons (s : State ℝ) (e : Event) (es : List Event) :
    run s (e :: es) = run (step s e) es := rfl

theorem relax_sub (t : ℝ) : relax t - 1.15 = 0.96 * (t - 1.15) := by
  unfold relax lerp; ring

theorem run_noHand_targetSpread (N : ℕ) : ∀ s : State ℝ,
    (run s (List.replicate N Event.noHand)).targetSpread - 1.15
      = 0.96 ^ N * (s.targetSpread - 1.15) := by
  induction N with
  | zero => intro s; simp [run]
  | succ n ih =>
    intro s
    rw [List.replicate_succ, run_cons, ih]
    have : (step s Event.noHand).targetSpread = relax s.targetSpread := rfl
    rw [this, relax_sub, pow_succ]
    ring

theorem sustainedRun_currentSpread (o : ℝ) (deltas : ℕ → ℝ) (s : State ℝ) (n : ℕ) :
    (sustainedRun o deltas s n).currentSpread - mapGestureToSpread o
      = 0.94 ^ n * (s.currentSpread - mapGestureToSpread o) := by
  induction n with
  | zero => simp [sustainedRun]
  | succ n ih =>
    have h : (sustainedRun o deltas s (n + 1)).currentSpread
        = lerp (sustainedRun o deltas s n).currentSpread (mapGestureToSpread o) 0.06 := rfl
    rw [h, pow_succ]
    have e : lerp (sustainedRun o deltas s n).currentSpread (mapGestureToSpread o) 0.06
        - mapGestureToSpread o
        = 0.94 * ((sustainedRun o deltas s n).currentSpread - mapGestureToSpread o) := by
      unfold lerp; ring
    rw [e, ih]
    ring

theorem continuous_brightness : Continuous (brightness : ℝ → ℝ) := by
  unfold brightness clamp
  fun_prop

theorem brightness_mapGestureToSpread {o : ℝ} (h0 : 0 ≤ o) (h1 : o ≤ 1) :
    brightness (mapGestureToSpread o)
      = lerp (params : Params ℝ).baseBrightness (params : Params ℝ).maxBrightness o := by
  unfold brightness mapGestureToSpread params
  simp only
  have e : (0.28 : ℝ) + (lerp 0.62 2.6 o - 0.62) / (2.6 - 0.62) * (1.4 - 0.28)
      = lerp 0.28 1.4 o := by
    unfold lerp
    field_simp
    ring
  rw [e]
  have hm := @lerp_mem ℝ _ 0.28 1.4 0.28 1.4 o h0 h1 ⟨le_rfl, by norm_num⟩ ⟨by norm_num, le_rfl⟩
  exact clamp_of_mem hm.1 hm.2

end App

/-- C8: after `N` consecutive detections without a hand, starting from any
`targetSpread = t0`, the distance to the neutral value satisfies
`targetSpread_N - 1.15 = 0.96^N * (t0 - 1.15)`; hence `targetSpread_N` stays on
the same side of `1.15` as `t0`, `|targetSpread_N - 1.15|` is non-increasing in
`N`, and for every `eps > 0` it is below `eps` from some `N0` on. -/
theorem C8_no_hand_relaxation (s : App.State ℝ) :
    (∀ N : ℕ, (App.run s (List.replicate N App.Event.noHand)).targetSpread - 1.15
      = 0.96 ^ N * (s.targetSpread - 1.15)) ∧
    (∀ N : ℕ,
      SignType.sign ((App.run s (List.replicate N App.Event.noHand)).targetSpread - 1.15)
        = SignType.sign (s.targetSpread - 1.15)) ∧
    (∀ N : ℕ,
      |(App.run s (List.replicate (N + 1) App.Event.noHand)).targetSpread - 1.15|
        ≤ |(App.run s (List.replicate N App.Event.noHand)).targetSpread - 1.15|) ∧
    (∀ eps : ℝ, 0 < eps → ∃ N0 : ℕ, ∀ N : ℕ, N0 ≤ N →
      |(App.run s (List.replicate N App.Event.noHand)).targetSpread - 1.15| < eps) := by
  have hpos : ∀ N : ℕ, (0 : ℝ) < 0.96 ^ N := fun N => pow_pos (by norm_num) N
  refine ⟨fun N => App.run_noHand_targetSpread N s, ?_, ?_, ?_⟩
  · intro N
    rw [App.run_noHand_targetSpread, sign_mul, sign_pos (hpos N), one_mul]
  · intro N
    rw [App.run_noHand_targetSpread, App.run_noHand_targetSpread, abs_mul, abs_mul,
      abs_of_pos (hpos _), abs_of_pos (hpos _), pow_succ]
    have h1 : (0.96 : ℝ) ^ N * 0.96 ≤ 0.96 ^ N := by nlinarith [hpos N]
    exact mul_le_mul_of_nonneg_right h1 (abs_nonneg _)
  · intro eps heps
    have hd : 0 < |s.targetSpread - 1.15| + 1 := by positivity
    obtain ⟨N0, hN0⟩ := exists_pow_lt_of_lt_one (div_pos heps hd)
      (show (0.96 : ℝ) < 1 by norm_num)
    refine ⟨N0, fun N hN => ?_⟩
    rw [App.run_noHand_targetSpread, abs_mul, abs_of_pos (hpos _)]
    have h1 : (0.96 : ℝ) ^ N ≤ 0.96 ^ N0 :=
      pow_le_pow_of_le_one (by norm_num) (by norm_num) hN
    have h2 : (0.96 : ℝ) ^ N * |s.targetSpread - 1.15|
        ≤ 0.96 ^ N0 * (|s.targetSpread - 1.15| + 1) :=
      mul_le_mul h1 (by linarith) (abs_nonneg _) (hpos N0).le
    have h3 : (0.96 : ℝ) ^ N0 * (|s.targetSpread - 1.15| + 1) < eps := by
      rwa [lt_div_iff₀ hd] at hN0
    linarith

/-- C8, evaluated: from `targetSpread = 2.6` the value is within `0.01` of the
neutral value from some detection on. -/
theorem C8_no_hand_relaxation_witness :
    ∃ N0 : ℕ, ∀ N : ℕ, N0 ≤ N →
      |(App.run (⟨0, 2.6, 1.1, 0, false⟩ : App.State ℝ)
          (List.replicate N App.Event.noHand)).targetSpread - 1.15| < 0.01 :=
  (C8_no_hand_relaxation ⟨0, 2.6, 1.1, 0, false⟩).2.2.2 0.01 (by norm_num)

/-- C9 (as stated) fails: from `targetSpread = 2.6`, which lies in
`[minSpread, maxSpread]`, 150 consecutive detections without a hand leave
`targetSpread` more than `0.001` (in fact more than `0.003`) away from `1.15`. -/
theorem C9_150_detections_counterexample :
    ((App.params : App.Params ℝ).minSpread ≤ 2.6 ∧
      (2.6 : ℝ) ≤ (App.params : App.Params ℝ).maxSpread) ∧
    ¬ (|(App.run (⟨0, 2.6, 1.1, 0, false⟩ : App.State ℝ)
          (List.replicate 150 App.Event.noHand)).targetSpread - 1.15| ≤ 0.001) ∧
    0.003 < |(App.run (⟨0, 2.6, 1.1, 0, false⟩ : App.State ℝ)
          (List.replicate 150 App.Event.noHand)).targetSpread - 1.15| := by
  have h : |(App.run (⟨0, 2.6, 1.1, 0, false⟩ : App.State ℝ)
      (List.replicate 150 App.Event.noHand)).targetSpread - 1.15|
      = 0.96 ^ 150 * 1.45 := by
    rw [App.run_noHand_targetSpread, abs_of_nonneg (by norm_num)]
    norm_num
  rw [h]
  refine ⟨⟨?_, ?_⟩, ?_, ?_⟩
  · unfold App.params; norm_num
  · unfold App.params; norm_num
  · norm_num
  · norm_num

/-- C9 (amended): for every starting `targetSpread` in
`[minSpread, maxSpread] = [0.62, 2.6]`, after 150 consecutive detections
without a hand `|targetSpread - 1.15| ≤ 0.0032`, and after 179 or more such
detections `|targetSpread - 1.15| ≤ 0.001`. -/
theorem C9_no_hand_relaxation_bounds (s : App.State ℝ)
    (hlo : (App.params : App.Params ℝ).minSpread ≤ s.targetSpread)
    (hhi : s.targetSpread ≤ (App.params : App.Params ℝ).maxSpread) :
    |(App.run s (List.replicate 150 App.Event.noHand)).targetSpread - 1.15| ≤ 0.0032 ∧
    (∀ N : ℕ, 179 ≤ N →
      |(App.run s (List.replicate N App.Event.noHand)).targetSpread - 1.15| ≤ 0.001) := by
  have hlo2 : (0.62 : ℝ) ≤ s.targetSpread := hlo
  have hhi2 : s.targetSpread ≤ (2.6 : ℝ) := hhi
  have hd : |s.targetSpread - 1.15| ≤ 1.45 := by
    rw [abs_le]; constructor <;> linarith
  have hpos : ∀ N : ℕ, (0 : ℝ) < 0.96 ^ N := fun N => pow_pos (by norm_num) N
  have key : ∀ N : ℕ,
      |(App.run s (List.replicate N App.Event.noHand)).targetSpread - 1.15|
        ≤ 0.96 ^ N * 1.45 := by
    intro N
    rw [App.run_noHand_targetSpread, abs_mul, abs_of_pos (hpos N)]
    exact mul_le_mul_of_nonneg_left hd (hpos N).le
  constructor
  · refine (key 150).trans ?_
    norm_num
  · intro N hN
    have h1 : (0.96 : ℝ) ^ N ≤ 0.96 ^ 179 :=
      pow_le_pow_of_le_one (by norm_num) (by norm_num) hN
    have h2 : (0.96 : ℝ) ^ 179 * 1.45 ≤ 0.001 := by norm_num
    have := key N
    nlinarith

/-- C9 (amended), evaluated from the initial state, whose `targetSpread` is 1.1. -/
theorem C9_no_hand_relaxation_bounds_witness :
    |(App.run (App.init : App.State ℝ)
        (List.replicate 150 App.Event.noHand)).targetSpread - 1.15| ≤ 0.0032 :=
  (C9_no_hand_relaxation_bounds App.init
    (by unfold App.params App.init; norm_num)
    (by unfold App.params App.init; norm_num)).1

/-- C10: when openness `o` in `[0, 1]` is sustained (every detection calls
`mapGestureToSpread(o)` and frames of `animate` follow), then from any
starting state `currentSpread` converges to `lerp(minSpread, maxSpread, o)`
and the brightness computed in `animate` converges to
`lerp(baseBrightness, maxBrightness, o)`; these limits are `0.62` and `0.28`
for `o = 0`, and `2.6` and `1.4` for `o = 1`. -/
theorem C10_sustained_openness_converges (o : ℝ) (h0 : 0 ≤ o) (h1 : o ≤ 1)
    (deltas : ℕ → ℝ) (s : App.State ℝ) :
    Filter.Tendsto (fun n => (App.sustainedRun o deltas s n).currentSpread) Filter.atTop
      (nhds (MathUtils.lerp (App.params : App.Params ℝ).minSpread
        (App.params : App.Params ℝ).maxSpread o)) ∧
    Filter.Tendsto (fun n => App.brightness (App.sustainedRun o deltas s n).currentSpread)
      Filter.atTop
      (nhds (MathUtils.lerp (App.params : App.Params ℝ).baseBrightness
        (App.params : App.Params ℝ).maxBrightness o)) ∧
    (o = 0 →
      MathUtils.lerp (App.params : App.Params ℝ).minSpread
        (App.params : App.Params ℝ).maxSpread o = 0.62 ∧
      MathUtils.lerp (App.params : App.Params ℝ).baseBrightness
        (App.params : App.Params ℝ).maxBrightness o = 0.28) ∧
    (o = 1 →
      MathUtils.lerp (App.params : App.Params ℝ).minSpread
        (App.params : App.Params ℝ).maxSpread o = 2.6 ∧
      MathUtils.lerp (App.params : App.Params ℝ).baseBrightness
        (App.params : App.Params ℝ).maxBrightness o = 1.4) := by
  have hc : Filter.Tendsto (fun n => (App.sustainedRun o deltas s n).currentSpread)
      Filter.atTop (nhds (App.mapGestureToSpread o)) := by
    have hfun : (fun n => (App.sustainedRun o deltas s n).currentSpread)
        = fun n => (0.94 : ℝ) ^ n * (s.currentSpread - App.mapGestureToSpread o)
            + App.mapGestureToSpread o := by
      funext n
      have := App.sustainedRun_currentSpread o deltas s n
      linarith
    rw [hfun]
    have hp : Filter.Tendsto (fun n : ℕ => (0.94 : ℝ) ^ n) Filter.atTop (nhds 0) :=
      tendsto_pow_atTop_nhds_zero_of_lt_one (by norm_num) (by norm_num)
    have := (hp.mul_const (s.currentSpread - App.mapGestureToSpread o)).add_const
      (App.mapGestureToSpread o)
    simpa using this
  refine ⟨hc, ?_, ?_, ?_⟩
  · rw [← App.brightness_mapGestureToSpread h0 h1]
    exact (App.continuous_brightness.tendsto _).comp hc
  · intro ho
    subst ho
    unfold App.params MathUtils.lerp
    norm_num
  · intro ho
    subst ho
    unfold App.params MathUtils.lerp
    norm_num

/-- C10, evaluated at the closed hand `o = 0` from the initial state with
frames of 16 ms: `currentSpread` converges to `minSpread`. -/
theorem C10_sustained_openness_converges_witness :
    Filter.Tendsto
      (fun n => (App.sustainedRun (0 : ℝ) (fun _ => 0.016) App.init n).currentSpread)
      Filter.atTop
      (nhds (MathUtils.lerp (App.params : App.Params ℝ).minSpread
        (App.params : App.Params ℝ).maxSpread 0)) :=
  (C10_sustained_openness_converges 0 le_rfl zero_le_one (fun _ => 0.016) App.init).1

/-! ## The ring loop of `updateRing` and the chaos force (`src/app.js`) -/

namespace App

open MathUtils

theorem updateRing_brownianForce (delta : ℝ) (s : State ℝ) :
    (updateRing delta s).brownianForce
      = lerp s.brownianForce (brownianTarget s.currentSpread) 0.05 := rfl

theorem brownianTarget_le (c : ℝ) : brownianTarget c ≤ 8.5 := by
  unfold brownianTarget
  split_ifs <;> norm_num

theorem updateRing_brownianForce_nonneg (delta : ℝ) (s : State ℝ)
    (h : 0 ≤ s.brownianForce) : 0 ≤ (updateRing delta s).brownianForce := by
  rw [updateRing_brownianForce]
  exact (@lerp_mem ℝ _ 0 (max s.brownianForce (brownianTarget s.currentSpread)) _ _ _
    (by norm_num) (by norm_num) ⟨h, le_max_left _ _⟩
    ⟨brownianTarget_nonneg _, le_max_right _ _⟩).1

theorem updateRing_brownianForce_le (delta : ℝ) (s : State ℝ)
    (h : s.brownianForce ≤ 8.5) : (updateRing delta s).brownianForce ≤ 8.5 := by
  rw [updateRing_brownianForce]
  exact (@lerp_mem ℝ _ (min s.brownianForce (brownianTarget s.currentSpread)) 8.5 _ _ _
    (by norm_num) (by norm_num) ⟨min_le_left _ _, h⟩
    ⟨min_le_right _ _, brownianTarget_le _⟩).2

/-- A point at distance `r` from the axis, displaced in the plane by `n` times
a vector with both components in `[-1/2, 1/2]`, is at distance at most
`r + (sqrt 2 / 2) * n` from the axis. -/
theorem sqrt_planar_le (r n a c θ : ℝ) (hr : 0 ≤ r) (hn : 0 ≤ n)
    (ha : -(1 / 2) ≤ a ∧ a ≤ 1 / 2) (hc : -(1 / 2) ≤ c ∧ c ≤ 1 / 2) :
    Real.sqrt ((r * Real.cos θ + a * n) ^ 2 + (r * Real.sin θ + c * n) ^ 2)
      ≤ r + Real.sqrt 2 / 2 * n := by
  have hk0 : 0 ≤ Real.sqrt 2 / 2 := by positivity
  have hk2 : (Real.sqrt 2 / 2) ^ 2 = 1 / 2 := by
    rw [div_pow, Real.sq_sqrt (by norm_num)]; norm_num
  have hcs : Real.cos θ ^ 2 + Real.sin θ ^ 2 = 1 := Real.cos_sq_add_sin_sq θ
  have ha2 : a ^ 2 ≤ 1 / 4 := by nlinarith [ha.1, ha.2]
  have hc2 : c ^ 2 ≤ 1 / 4 := by nlinarith [hc.1, hc.2]
  have hac : a ^ 2 + c ^ 2 ≤ 1 / 2 := by linarith
  have ht2 : (a * Real.cos θ + c * Real.sin θ) ^ 2 ≤ 1 / 2 := by
    have e : (a * Real.cos θ + c * Real.sin θ) ^ 2
        + (a * Real.sin θ - c * Real.cos θ) ^ 2
        = (a ^ 2 + c ^ 2) * (Real.cos θ ^ 2 + Real.sin θ ^ 2) := by ring
    rw [hcs, mul_one] at e
    nlinarith [sq_nonneg (a * Real.sin θ - c * Real.cos θ)]
  have ht : a * Real.cos θ + c * Real.sin θ ≤ Real.sqrt 2 / 2 := by
    by_contra hcon
    push_neg at hcon
    nlinarith
  rw [Real.sqrt_le_left (by positivity)]
  have e : (r * Real.cos θ + a * n) ^ 2 + (r * Real.sin θ + c * n) ^ 2
      = r ^ 2 * (Real.cos θ ^ 2 + Real.sin θ ^ 2)
        + 2 * (r * n) * (a * Real.cos θ + c * Real.sin θ) + n ^ 2 * (a ^ 2 + c ^ 2) := by
    ring
  rw [e, hcs, mul_one]
  have h1 : 2 * (r * n) * (a * Real.cos θ + c * Real.sin θ)
      ≤ 2 * (r * n) * (Real.sqrt 2 / 2) :=
    mul_le_mul_of_nonneg_left ht (by positivity)
  have h2 : n ^ 2 * (a ^ 2 + c ^ 2) ≤ n ^ 2 * (1 / 2) :=
    mul_le_mul_of_nonneg_left hac (by positivity)
  have e2 : (r + Real.sqrt 2 / 2 * n) ^ 2
      = r ^ 2 + 2 * (r * n) * (Real.sqrt 2 / 2) + n ^ 2 * (Real.sqrt 2 / 2) ^ 2 := by ring
  rw [e2, hk2]
  linarith

theorem planarRadius_updateRingParticle (delta brightness : ℝ) (s : State ℝ)
    (state : RingParticle ℝ) (rnd : Vec3 ℝ)
    (hdelta : 0 ≤ delta) (hspread : 0 ≤ s.currentSpread) (hforce : 0 ≤ s.brownianForce)
    (hradius : 0 ≤ state.radius)
    (hx : 0 ≤ rnd.x ∧ rnd.x < 1) (hz : 0 ≤ rnd.z ∧ rnd.z < 1) :
    planarRadius (updateRingParticle delta brightness s state rnd).2
      ≤ state.radius * s.currentSpread
        + Real.sqrt 2 / 2 * (s.brownianForce * delta * 12) := by
  unfold planarRadius updateRingParticle
  exact sqrt_planar_le _ _ _ _ _ (mul_nonneg hradius hspread)
    (mul_nonneg (mul_nonneg hforce hdelta) (by norm_num))
    ⟨by linarith [hx.1], by linarith [hx.2]⟩ ⟨by linarith [hz.1], by linarith [hz.2]⟩

end App

/-- C11: in one call of `updateRing` with `delta ≥ 0`, `currentSpread` in
`[minSpread, maxSpread]`, `brownianForce ≥ 0`, every base radius in `[26, 56]`
and every random draw in `[0, 1)`, every particle emits one position, keeps its
base radius, and the planar radius `sqrt(x^2 + z^2)` of the position lies in
`[0, maxSpread * 56 + (sqrt 2 / 2) * brownianForce * delta * 12]`, where
`brownianForce` is the value the call uses for `noiseAmp` (the variable after
its interpolation step); with `brownianForce ≤ 8.5` and `delta ≤ D` it is at
most `2.6 * 56 + (sqrt 2 / 2) * 8.5 * D * 12`, whatever the number of earlier
ticks. -/
theorem C11_ring_planar_radius_bounded (delta brightness : ℝ) (s : App.State ℝ)
    (ringState : List (App.RingParticle ℝ)) (rnd : ℕ → Vec3 ℝ)
    (hdelta : 0 ≤ delta)
    (hlo : (App.params : App.Params ℝ).minSpread ≤ s.currentSpread)
    (hhi : s.currentSpread ≤ (App.params : App.Params ℝ).maxSpread)
    (hforce : 0 ≤ s.brownianForce)
    (hradius : ∀ p ∈ ringState, 26 ≤ p.radius ∧ p.radius ≤ 56)
    (hrnd : ∀ i : ℕ, (0 ≤ (rnd i).x ∧ (rnd i).x < 1) ∧ (0 ≤ (rnd i).y ∧ (rnd i).y < 1) ∧
      (0 ≤ (rnd i).z ∧ (rnd i).z < 1)) :
    (App.updateRingPositions delta brightness s ringState rnd).length = ringState.length ∧
    0 ≤ (App.updateRing delta s).brownianForce ∧
    ∀ out ∈ App.updateRingPositions delta brightness s ringState rnd,
      (26 ≤ out.1.radius ∧ out.1.radius ≤ 56) ∧
      0 ≤ App.planarRadius out.2 ∧
      App.planarRadius out.2
        ≤ (App.params : App.Params ℝ).maxSpread * 56
          + Real.sqrt 2 / 2 * (App.updateRing delta s).brownianForce * delta * 12 ∧
      ∀ D : ℝ, s.brownianForce ≤ 8.5 → delta ≤ D →
        App.planarRadius out.2 ≤ 2.6 * 56 + Real.sqrt 2 / 2 * 8.5 * D * 12 := by
  have hlo2 : (0.62 : ℝ) ≤ s.currentSpread := hlo
  have hhi2 : s.currentSpread ≤ (2.6 : ℝ) := hhi
  have hb0 := App.updateRing_brownianForce_nonneg delta s hforce
  have hk0 : 0 ≤ Real.sqrt 2 / 2 := by positivity
  refine ⟨by simp [App.updateRingPositions], hb0, ?_⟩
  intro out hout
  unfold App.updateRingPositions at hout
  rw [List.mem_map] at hout
  obtain ⟨ip, hip, rfl⟩ := hout
  have hp := hradius ip.2 (List.snd_mem_of_mem_enumFrom hip)
  have hr := hrnd ip.1
  have hmain := App.planarRadius_updateRingParticle delta brightness (App.updateRing delta s)
    ip.2 (rnd ip.1) hdelta (show (0 : ℝ) ≤ s.currentSpread by linarith) hb0
    (by linarith [hp.1]) hr.1 hr.2.2
  have hcs : (App.updateRing delta s).currentSpread = s.currentSpread := rfl
  rw [hcs] at hmain
  have hrc : ip.2.radius * s.currentSpread ≤ 2.6 * 56 := by
    nlinarith [mul_le_mul hp.2 hhi2 (by linarith) (by norm_num : (0 : ℝ) ≤ 56)]
  have hbound : App.planarRadius
      (App.updateRingParticle delta brightness (App.updateRing delta s) ip.2 (rnd ip.1)).2
      ≤ 2.6 * 56 + Real.sqrt 2 / 2 * (App.updateRing delta s).brownianForce * delta * 12 := by
    have e : Real.sqrt 2 / 2 * ((App.updateRing delta s).brownianForce * delta * 12)
        = Real.sqrt 2 / 2 * (App.updateRing delta s).brownianForce * delta * 12 := by ring
    linarith
  refine ⟨hp, Real.sqrt_nonneg _, hbound, ?_⟩
  intro D hb hD
  have hb85 := App.updateRing_brownianForce_le delta s hb
  have hprod : (App.updateRing delta s).brownianForce * delta ≤ 8.5 * D :=
    mul_le_mul hb85 hD hdelta (by norm_num)
  have hk : Real.sqrt 2 / 2 * ((App.updateRing delta s).brownianForce * delta)
      ≤ Real.sqrt 2 / 2 * (8.5 * D) := mul_le_mul_of_nonneg_left hprod hk0
  nlinarith

/-- C11, evaluated: the first tick of 16 ms from the initial state with a ring
of two particles of radii 26 and 56; the bound holds for the position emitted
for the first particle. -/
theorem C11_ring_planar_radius_bounded_witness :
    App.planarRadius (App.updateRingParticle 0.016 0.5 (App.updateRing 0.016 App.init)
        ⟨26, 0, 1⟩ ⟨0.25, 0.5, 0.75⟩).2
      ≤ 2.6 * 56 + Real.sqrt 2 / 2 * 8.5 * 0.02 * 12 :=
  ((C11_ring_planar_radius_bounded 0.016 0.5 App.init
      [⟨26, 0, 1⟩, ⟨56, 2, -1⟩] (fun _ => ⟨0.25, 0.5, 0.75⟩)
      (by norm_num)
      (by unfold App.params App.init; norm_num)
      (by unfold App.params App.init; norm_num)
      (by unfold App.init; norm_num)
      (by intro p hp; simp at hp; rcases hp with rfl | rfl <;> norm_num)
      (by intro i; norm_num)).2.2
    (App.updateRingParticle 0.016 0.5 (App.updateRing 0.016 App.init)
      ⟨26, 0, 1⟩ ⟨0.25, 0.5, 0.75⟩)
    (List.mem_map.2 ⟨(0, ⟨26, 0, 1⟩), by simp [List.enum, List.enumFrom], rfl⟩)).2.2.2 0.02
    (by unfold App.init; norm_num) (by norm_num)

/-- C12: in `updateRing` the target of `brownianForce` is `8.5` exactly when
`currentSpread > chaoticThreshold = 1.8` and `0.6` otherwise; it is computed
from the `currentSpread` of the running frame, so the frame of `animate` in
which `currentSpread` rises above the threshold already interpolates toward
`8.5`; and the new value `b' = lerp(b, target, 0.05)` satisfies
`|b' - b| = 0.05 * |target - b|` and lies between `b` and the target. -/
theorem C12_brownian_target_switch_and_step (delta : ℝ) (s : App.State ℝ) :
    (App.params : App.Params ℝ).chaoticThreshold = 1.8 ∧
    (∀ c : ℝ, (App.brownianTarget c = 8.5 ↔ c > (App.params : App.Params ℝ).chaoticThreshold) ∧
      (App.brownianTarget c = 0.6 ↔ ¬ c > (App.params : App.Params ℝ).chaoticThreshold)) ∧
    (App.animate delta s).brownianForce
      = MathUtils.lerp s.brownianForce
          (App.brownianTarget (App.animate delta s).currentSpread) 0.05 ∧
    (s.currentSpread ≤ 1.8 → (App.animate delta s).currentSpread > 1.8 →
      App.brownianTarget s.currentSpread = 0.6 ∧
      (App.animate delta s).brownianForce = MathUtils.lerp s.brownianForce 8.5 0.05) ∧
    (App.updateRing delta s).brownianForce
      = MathUtils.lerp s.brownianForce (App.brownianTarget s.currentSpread) 0.05 ∧
    |(App.updateRing delta s).brownianForce - s.brownianForce|
      = 0.05 * |App.brownianTarget s.currentSpread - s.brownianForce| ∧
    min s.brownianForce (App.brownianTarget s.currentSpread)
      ≤ (App.updateRing delta s).brownianForce ∧
    (App.updateRing delta s).brownianForce
      ≤ max s.brownianForce (App.brownianTarget s.currentSpread) := by
  have htarget : ∀ c : ℝ,
      (App.brownianTarget c = 8.5 ↔ c > (App.params : App.Params ℝ).chaoticThreshold) ∧
      (App.brownianTarget c = 0.6 ↔ ¬ c > (App.params : App.Params ℝ).chaoticThreshold) := by
    intro c
    unfold App.brownianTarget
    by_cases h : c > (App.params : App.Params ℝ).chaoticThreshold
    · rw [if_pos h]
      exact ⟨⟨fun _ => h, fun _ => rfl⟩, ⟨fun h' => by norm_num at h', fun h' => absurd h h'⟩⟩
    · rw [if_neg h]
      exact ⟨⟨fun h' => by norm_num at h', fun h' => absurd h' h⟩, ⟨fun _ => h, fun _ => rfl⟩⟩
  have hthr : (App.params : App.Params ℝ).chaoticThreshold = 1.8 := rfl
  have hstep : (App.updateRing delta s).brownianForce - s.brownianForce
      = 0.05 * (App.brownianTarget s.currentSpread - s.brownianForce) := by
    rw [App.updateRing_brownianForce]
    exact MathUtils.lerp_sub_left _ _ _
  refine ⟨hthr, htarget, rfl, ?_, rfl, ?_, ?_, ?_⟩
  · intro hle hgt
    have h1 : App.brownianTarget s.currentSpread = 0.6 :=
      (htarget s.currentSpread).2.2 (by rw [hthr]; exact not_lt.2 hle)
    have h2 : App.brownianTarget (App.animate delta s).currentSpread = 8.5 :=
      (htarget _).1.2 (by rw [hthr]; exact hgt)
    refine ⟨h1, ?_⟩
    rw [← h2]
    rfl
  · rw [hstep, abs_mul, abs_of_pos (by norm_num : (0 : ℝ) < 0.05)]
  · rcases le_total s.brownianForce (App.brownianTarget s.currentSpread) with h | h
    · rw [min_eq_left h]; linarith
    · rw [min_eq_right h]; linarith
  · rcases le_total s.brownianForce (App.brownianTarget s.currentSpread) with h | h
    · rw [max_eq_right h]; linarith
    · rw [max_eq_left h]; linarith

/-- C12, evaluated: with `currentSpread = 1.8` and `targetSpread = 2.6` the
frame moves `currentSpread` to `1.848`, above the threshold, and the same frame
interpolates `brownianForce` toward `8.5`. -/
theorem C12_brownian_target_switch_and_step_witness :
    App.brownianTarget (1.8 : ℝ) = 0.6 ∧
    (App.animate 0.016 (⟨0.6, 2.6, 1.8, 0, true⟩ : App.State ℝ)).brownianForce
      = MathUtils.lerp 0.6 8.5 0.05 :=
  (C12_brownian_target_switch_and_step 0.016 ⟨0.6, 2.6, 1.8, 0, true⟩).2.2.2.1
    (by norm_num)
    (by
      show MathUtils.lerp (1.8 : ℝ) 2.6 0.06 > 1.8
      unfold MathUtils.lerp
      norm_num)

/-! ## The smoothed gesture of `src/main.js` -/

namespace Main

open MathUtils

theorem computeOpenness_mem (landmarks : Fin 21 → Vec3 ℝ) :
    0 ≤ computeOpenness landmarks ∧ computeOpenness landmarks ≤ 1 := by
  unfold computeOpenness
  exact clamp_mem _ zero_le_one

theorem onResults_openness_mem (results : Option (Fin 21 → Vec3 ℝ)) (g : Gesture ℝ)
    (h : 0 ≤ g.openness ∧ g.openness ≤ 1) :
    0 ≤ (onResults results g).openness ∧ (onResults results g).openness ≤ 1 := by
  cases results with
  | none => exact h
  | some lm => exact lerp_mem (by norm_num) (by norm_num) h (computeOpenness_mem lm)

theorem runResults_openness_mem (results : List (Option (Fin 21 → Vec3 ℝ))) :
    ∀ g : Gesture ℝ, (0 ≤ g.openness ∧ g.openness ≤ 1) →
      0 ≤ (runResults g results).openness ∧ (runResults g results).openness ≤ 1 := by
  induction results with
  | nil => intro g h; exact h
  | cons r rs ih => intro g h; exact ih (onResults r g) (onResults_openness_mem r g h)

theorem animateOpenness_mem (g : Gesture ℝ) (now : ℝ)
    (h : 0 ≤ g.openness ∧ g.openness ≤ 1) :
    0 ≤ animateOpenness g now ∧ animateOpenness g now ≤ 1 := by
  unfold animateOpenness
  split_ifs
  · exact h
  · constructor
    · nlinarith [Real.neg_one_le_sin (now * 0.0007)]
    · nlinarith [Real.sin_le_one (now * 0.0007)]

end Main

/-- C13: starting from `gesture.openness = 0.5`, after every sequence of
detector results (a hand result sets `gesture.openness` to
`lerp(gesture.openness, computeOpenness(landmarks), 0.15)`, a result without
hand leaves it unchanged) `gesture.openness` is in `[0, 1]`; the scalar that
`animate` passes to `SaturnSystem.update` (`gesture.openness` when `hasHand`,
otherwise `0.5 + 0.25 * sin(t)`) is in `[0, 1]`, so the brightness is in
`[0.35, 1.2]`, the ring opacity `0.4 + 0.5 * brightness` in `[0.575, 1.0]` and
`chaos = max(0, scaleNormalized - 0.78)` in `[0, 0.22]`. -/
theorem C13_gesture_openness_and_appearance_bounds
    (results : List (Option (Fin 21 → Vec3 ℝ))) (now : ℝ) :
    (Main.gestureInit : Main.Gesture ℝ).openness = 0.5 ∧
    (∀ (g : Main.Gesture ℝ) (lm : Fin 21 → Vec3 ℝ),
      (Main.onResults (some lm) g).openness
        = MathUtils.lerp g.openness (Main.computeOpenness lm) 0.15 ∧
      (Main.onResults none g).openness = g.openness) ∧
    (0 ≤ (Main.runResults Main.gestureInit results).openness ∧
      (Main.runResults Main.gestureInit results).openness ≤ 1) ∧
    (0 ≤ Main.animateOpenness (Main.runResults Main.gestureInit results) now ∧
      Main.animateOpenness (Main.runResults Main.gestureInit results) now ≤ 1) ∧
    ((0.35 : ℝ) ≤ (Main.update
        (Main.animateOpenness (Main.runResults Main.gestureInit results) now)).brightness ∧
      (Main.update
        (Main.animateOpenness (Main.runResults Main.gestureInit results) now)).brightness
        ≤ 1.2) ∧
    ((Main.update
        (Main.animateOpenness (Main.runResults Main.gestureInit results) now)).ringOpacity
      = 0.4 + 0.5 * (Main.update
        (Main.animateOpenness (Main.runResults Main.gestureInit results) now)).brightness ∧
      (0.575 : ℝ) ≤ (Main.update
        (Main.animateOpenness (Main.runResults Main.gestureInit results) now)).ringOpacity ∧
      (Main.update
        (Main.animateOpenness (Main.runResults Main.gestureInit results) now)).ringOpacity
        ≤ 1.0) ∧
    ((Main.update
        (Main.animateOpenness (Main.runResults Main.gestureInit results) now)).chaos
      = max 0 (Main.animateOpenness (Main.runResults Main.gestureInit results) now - 0.78) ∧
      0 ≤ (Main.update
        (Main.animateOpenness (Main.runResults Main.gestureInit results) now)).chaos ∧
      (Main.update
        (Main.animateOpenness (Main.runResults Main.gestureInit results) now)).chaos
        ≤ 0.22) := by
  have hinit : (0 : ℝ) ≤ (Main.gestureInit : Main.Gesture ℝ).openness ∧
      (Main.gestureInit : Main.Gesture ℝ).openness ≤ 1 := by
    unfold Main.gestureInit
    norm_num
  have hg := Main.runResults_openness_mem results Main.gestureInit hinit
  have hx := Main.animateOpenness_mem (Main.runResults Main.gestureInit results) now hg
  generalize Main.animateOpenness (Main.runResults Main.gestureInit results) now = x at hx
  have hb : (0.35 : ℝ) ≤ (Main.update x).brightness ∧ (Main.update x).brightness ≤ 1.2 :=
    MathUtils.lerp_mem hx.1 hx.2 ⟨le_rfl, by norm_num⟩ ⟨by norm_num, le_rfl⟩
  have ho : (Main.update x).ringOpacity = 0.4 + 0.5 * (Main.update x).brightness := by
    show (0.4 : ℝ) + (Main.update x).brightness * 0.5 = 0.4 + 0.5 * (Main.update x).brightness
    ring
  refine ⟨rfl, fun g lm => ⟨rfl, rfl⟩, hg, hx, hb, ⟨ho, ?_, ?_⟩, ⟨rfl, ?_, ?_⟩⟩
  · rw [ho]; linarith [hb.1]
  · rw [ho]; linarith [hb.2]
  · exact le_max_left _ _
  · exact max_le (by norm_num) (by linarith [hx.2])
